import Mathlib

/-!
Verification of `jupyter_notebook_config.py`: a Jupyter post-save hook that
converts a just-saved notebook to a script with nbconvert and writes the
script into a `.nbexports` directory beside the configuration file.

Python strings are embedded as `List Char` (one entry per code point, as in
Python `str`).  The path helpers (`os.path.splitext`, `os.path.dirname`,
`os.path.join`, `notebook.utils.to_api_path`) are embedded for the POSIX
path convention (`os.path.sep = '/'`), which is the convention the spec and
the repository assume.
-/

set_option autoImplicit false

namespace NbExport

/-- Embedding of a Python `str`: a list of code points. -/
abbrev Str := List Char

/-- Helper for `os.path.splitext`: split a basename at its LAST dot,
returning `some (before, from-the-dot)`, or `none` when it has no dot.
A dot found in the tail wins over an earlier one, so the split point is the
last dot, mirroring `p.rfind(extsep)` in CPython `posixpath._splitext`. -/
def splitLastDot : Str → Option (Str × Str)
  | [] => none
  | c :: cs =>
    match splitLastDot cs with
    | some (p, s) => some (c :: p, s)
    | none => if c = '.' then some ([], c :: cs) else none

/-- `os.path.splitext` restricted to a basename (no separators): split off
the extension at the last dot, except when every character before that dot
is itself a dot (CPython skips the leading dots of the basename, so e.g.
`.bashrc` and `..` have no extension). -/
def splitextBase (b : Str) : Str × Str :=
  match splitLastDot b with
  | some (p, s) => if p.any (fun c => c ≠ '.') then (p, s) else (b, [])
  | none => (b, [])

/-- Split a path at its LAST `'/'`: returns `(head, basename)` where `head`
still carries the trailing `'/'` (as in slicing at `p.rfind(sep) + 1`).
A path with no separator has head `[]`. -/
def splitAtLastSep : Str → Str × Str
  | [] => ([], [])
  | c :: cs =>
    if '/' ∈ c :: cs then
      if c = '/' ∧ '/' ∉ cs then ([c], cs)
      else
        let r := splitAtLastSep cs
        (c :: r.1, r.2)
    else ([], c :: cs)

/-- `os.path.splitext` (POSIX): the extension is taken from the basename
only; the directory part is kept with the root. -/
def splitext (p : Str) : Str × Str :=
  let d := (splitAtLastSep p).1
  let b := (splitAtLastSep p).2
  let r := splitextBase b
  (d ++ r.1, r.2)

/-- `str.rstrip('/')`: drop trailing separators. -/
def rstripSlash (s : Str) : Str :=
  (s.reverse.dropWhile (fun c => c = '/')).reverse

/-- `os.path.dirname` (POSIX): everything up to the last `'/'`; trailing
separators are stripped unless the head consists solely of separators. -/
def dirname (p : Str) : Str :=
  let head := (splitAtLastSep p).1
  if head ≠ [] ∧ head.any (fun c => c ≠ '/') then rstripSlash head else head

/-- `os.path.join a b` (POSIX, two arguments): an absolute `b` replaces `a`;
otherwise `b` is appended, inserting `'/'` unless `a` is empty or already
ends with one. -/
def path_join (a b : Str) : Str :=
  if b.head? = some '/' then b
  else if a = [] ∨ a.getLast? = some '/' then a ++ b
  else a ++ '/' :: b

/-- `str.split('/')`: split into (possibly empty) pieces at every `'/'`. -/
def splitSep : Str → List Str
  | [] => [[]]
  | c :: cs =>
    if c = '/' then [] :: splitSep cs
    else
      match splitSep cs with
      | [] => [[c]]
      | s :: rest => (c :: s) :: rest

/-- `'/'.join(segs)`. -/
def joinSegs : List Str → Str
  | [] => []
  | [s] => s
  | s :: rest => s ++ '/' :: joinSegs rest

/-- Modelled from the spec: `notebook.utils.to_api_path`, the host server's
path-resolution utility (an external collaborator, not part of this
repository).  It strips the storage root from the front of an OS path and
rejoins the remaining non-empty `'/'`-separated pieces, yielding the path
relative to the storage root with forward slashes and no leading, trailing
or duplicated separators. -/
def to_api_path (os_path root : Str) : Str :=
  let p := if root.isPrefixOf os_path then os_path.drop root.length else os_path
  joinSegs ((splitSep p).filter (fun s => s ≠ []))

/-- `dict` lookup on an association list (first binding wins). -/
def dictLookup : List (Str × Str) → Str → Option Str
  | [], _ => none
  | (k, v) :: rest, key => if k = key then some v else dictLookup rest key

/-- `d.get(key, default)`. -/
def dictGet (d : List (Str × Str)) (key dflt : Str) : Str :=
  match dictLookup d key with
  | some v => v
  | none => dflt

/-- UTF-8 encoding of one code point, as a list of byte values. -/
def utf8EncodeChar (n : Nat) : List Nat :=
  if n < 0x80 then [n]
  else if n < 0x800 then [0xC0 + n / 0x40, 0x80 + n % 0x40]
  else if n < 0x10000 then
    [0xE0 + n / 0x1000, 0x80 + (n / 0x40) % 0x40, 0x80 + n % 0x40]
  else
    [0xF0 + n / 0x40000, 0x80 + (n / 0x1000) % 0x40, 0x80 + (n / 0x40) % 0x40, 0x80 + n % 0x40]

/-- UTF-8 encoding of a string. -/
def utf8Encode (s : Str) : List Nat :=
  (s.map (fun c => utf8EncodeChar c.toNat)).flatten

/-- Host-platform parameters that Python text I/O consults when the caller
leaves them unspecified: `os.linesep` and the default text encoding. -/
structure Platform where
  linesep : Str
  defaultEncoding : String

/-- Modelled from the spec: the byte encoder of Python's text I/O layer.
The configuration script always requests `utf-8`; any other (platform
default) codec is modelled as a one-byte-per-code-point encoding, which is
enough to distinguish it from UTF-8 on non-ASCII text. -/
def encodeBytes (enc : String) (t : Str) : List Nat :=
  if enc = "utf-8" then utf8Encode t else t.map (fun c => c.toNat % 256)

/-- Modelled from the spec: newline translation of `io.open(..., mode =
`w`)`.  With `newline=None` every `'\n'` becomes `os.linesep`; with
`newline=''` or `newline='\n'` no translation takes place; any other
newline string replaces `'\n'`. -/
def translateNL (nl : Str) : Str → Str
  | [] => []
  | c :: cs => if c = '\n' then nl ++ translateNL nl cs else c :: translateNL nl cs

/-- Modelled from the spec: the bytes that a Python text-mode `write(s)`
puts in the file, given the `encoding` and `newline` arguments of
`io.open` (`none` meaning the argument was omitted) and the platform. -/
def pyTextWrite (plat : Platform) (encoding : Option String) (newline : Option Str) (s : Str) :
    List Nat :=
  let t :=
    match newline with
    | none => translateNL plat.linesep s
    | some [] => s
    | some nl => if nl = ['\n'] then s else translateNL nl s
  encodeBytes (encoding.getD plat.defaultEncoding) t

/-- The `type` discriminator of the save event's `model` dict. -/
inductive ModelType where
  | notebook
  | file
  | directory
deriving DecidableEq

/-- The save event's `model`: only its `type` field is consulted. -/
structure SaveModel where
  type : ModelType
deriving DecidableEq

/-- The `contents_manager` passed to the hook: it exposes the storage root
(`root_dir`); its logger is modelled by the log events of the trace. -/
structure ContentsManager where
  root_dir : Str
deriving DecidableEq

/-- The nbconvert `ScriptExporter` object as configured by the hook:
constructed with `parent=contents_manager`, then its `template_file`
attribute is set.  Its conversion behaviour is external and lives in
`Env.from_filename`. -/
structure ScriptExporter where
  parent : ContentsManager
  template_file : Str
deriving DecidableEq

/-- The `resources` mapping returned by `exporter.from_filename`. -/
abbrev Resources := List (Str × Str)

/-- Filesystem state: the set of directories that exist and the files'
byte contents, keyed by absolute path. -/
structure FS where
  dirs : List Str
  files : List (Str × List Nat)
deriving DecidableEq

/-- The environment of a hook invocation: the external exporter behaviour
(`from_filename` may raise), possible OS failures of `os.makedirs` and of
opening/writing the file, and the platform defaults. -/
structure Env where
  from_filename : ScriptExporter → Str → Except Str (Str × Resources)
  mkdirErr : Str → Option Str
  writeErr : Str → Option Str
  plat : Platform

/-- Observable events of one hook invocation, in order. -/
inductive Event where
  | exporterConstructed (e : ScriptExporter)
  | exportInvoked (path : Str)
  | mkdirsDone (path : Str)
  | logInfo (msg : Str)
  | fileWrite (path : Str) (bytes : List Nat)
deriving DecidableEq

/-- Per-process mutable state: the module-level `_script_exporter` global
and the filesystem. -/
structure ProcState where
  script_exporter : Option ScriptExporter
  fs : FS
deriving DecidableEq

/-- Result of one hook invocation: its event trace, the state afterwards,
and the exception it propagated, if any. -/
structure HookResult where
  trace : List Event
  state : ProcState
  err : Option Str
deriving DecidableEq

/-- Insert a directory path if not already present. -/
def insertDir (l : List Str) (x : Str) : List Str :=
  if x ∈ l then l else x :: l

/-- The chain of ancestors `p, dirname p, dirname (dirname p), ...`, down
to (but not including) the empty path or a path of separators only; `n` is
recursion fuel. -/
def parentChain : Nat → Str → List Str
  | 0, _ => []
  | n + 1, p =>
    if p = [] ∨ p.all (fun c => c = '/') then [] else p :: parentChain n (dirname p)

/-- `os.makedirs(p, exist_ok=True)`: after the call, `p` and all its
ancestor directories exist; directories that already exist are left alone
and cause no error. -/
def makedirs (p : Str) (dirs : List Str) : List Str :=
  (parentChain (p.length + 1) p).foldl insertDir dirs

/-- Store file contents at a path, replacing any previous contents. -/
def setFile : List (Str × List Nat) → Str → List Nat → List (Str × List Nat)
  | [], p, v => [(p, v)]
  | (q, w) :: rest, p, v => if q = p then (p, v) :: rest else (q, w) :: setFile rest p v

/-- Look up file contents at a path. -/
def lookupFile : List (Str × List Nat) → Str → Option (List Nat)
  | [], _ => none
  | (q, w) :: rest, p => if q = p then some w else lookupFile rest p

/-- `".nbexports"`. -/
def nbexportsName : Str := ".nbexports".toList

/-- `"jupyter_script_export_template.tpl"`. -/
def templateName : Str := "jupyter_script_export_template.tpl".toList

/-- `"output_extension"`. -/
def outputExtensionKey : Str := "output_extension".toList

/-- The default extension `".txt"` of `resources.get`. -/
def txtExt : Str := ".txt".toList

/-- The literal part of the log line `"Saving script /%s"`. -/
def savingMsg : Str := "Saving script /".toList

/-- The full path the hook writes to, as computed by `export_script`:
`os.path.join(dir_path, ".nbexports", to_api_path(base + ext, root_dir))`
where `base` is `os_path` without its extension and `ext` is
`resources.get('output_extension', '.txt')`. -/
def exportTargetPath (dir_path : Str) (cm : ContentsManager) (os_path : Str)
    (resources : Resources) : Str :=
  path_join (path_join dir_path nbexportsName)
    (to_api_path ((splitext os_path).1 ++ dictGet resources outputExtensionKey txtExt)
      cm.root_dir)

/-- `export_script(exporter, model, os_path, contents_manager)`: runs the
exporter, derives the output path, makes the directories, logs, and writes
the script with `io.open(..., 'w', encoding='utf-8', newline='\n')`.
Returns the event trace, the filesystem afterwards, and the propagated
exception, if any.  The `model` argument is accepted and unused, as in the
source. -/
def export_script (env : Env) (dir_path : Str) (exporter : ScriptExporter)
    (model : SaveModel) (os_path : Str) (cm : ContentsManager) (fs : FS) :
    List Event × FS × Option Str :=
  match env.from_filename exporter os_path with
  | Except.error e => ([Event.exportInvoked os_path], fs, some e)
  | Except.ok (script, resources) =>
    let script_fullpath := exportTargetPath dir_path cm os_path resources
    let d := dirname script_fullpath
    match env.mkdirErr d with
    | some e => ([Event.exportInvoked os_path], fs, some e)
    | none =>
      let fs1 : FS := { fs with dirs := makedirs d fs.dirs }
      let msg := savingMsg ++ script_fullpath
      match env.writeErr script_fullpath with
      | some e =>
        ([Event.exportInvoked os_path, Event.mkdirsDone d, Event.logInfo msg], fs1, some e)
      | none =>
        let bytes := pyTextWrite env.plat (some "utf-8") (some ['\n']) script
        ([Event.exportInvoked os_path, Event.mkdirsDone d, Event.logInfo msg,
          Event.fileWrite script_fullpath bytes],
         { fs1 with files := setFile fs1.files script_fullpath bytes }, none)

/-- The exporter the hook will use: the cached `_script_exporter` when
present, otherwise a fresh `ScriptExporter(parent=contents_manager)` whose
`template_file` is set beside the configuration file. -/
def currentExporter (dir_path : Str) (cm : ContentsManager) (st : ProcState) :
    ScriptExporter :=
  match st.script_exporter with
  | some e => e
  | none => { parent := cm, template_file := path_join dir_path templateName }

/-- `script_post_save(model, os_path, contents_manager)`: returns at once
for non-notebook saves; otherwise lazily constructs and caches the
exporter in the `_script_exporter` global and calls `export_script`. -/
def script_post_save (env : Env) (dir_path : Str) (model : SaveModel)
    (os_path : Str) (cm : ContentsManager) (st : ProcState) : HookResult :=
  if model.type ≠ ModelType.notebook then
    { trace := [], state := st, err := none }
  else
    let exp := currentExporter dir_path cm st
    let st1 : ProcState := { st with script_exporter := some exp }
    let r := export_script env dir_path exp model os_path cm st1.fs
    { trace :=
        (if st.script_exporter = none then [Event.exporterConstructed exp] else []) ++ r.1,
      state := { st1 with fs := r.2.1 },
      err := r.2.2 }

/-- One save event delivered by the host to the hook. -/
structure SaveEvent where
  model : SaveModel
  os_path : Str
  cm : ContentsManager
deriving DecidableEq

/-- Run a sequence of save events through the hook in one process,
accumulating the trace. -/
def runSaves (env : Env) (dir_path : Str) (st : ProcState) :
    List SaveEvent → List Event × ProcState
  | [] => ([], st)
  | ev :: rest =>
    let r := script_post_save env dir_path ev.model ev.os_path ev.cm st
    let rec_ := runSaves env dir_path r.state rest
    (r.trace ++ rec_.1, rec_.2)

/-- Count the exporter constructions recorded in a trace. -/
def countConstruct (tr : List Event) : Nat :=
  tr.countP (fun e => match e with | Event.exporterConstructed _ => true | _ => false)

/-- The paths of the file writes recorded in a trace. -/
def writtenPaths (tr : List Event) : List Str :=
  tr.filterMap (fun e => match e with | Event.fileWrite p _ => some p | _ => none)

/-- The write events recorded in a trace, as `(path, bytes)` pairs. -/
def writeEvents (tr : List Event) : List (Str × List Nat) :=
  tr.filterMap (fun e => match e with | Event.fileWrite p b => some (p, b) | _ => none)

/-- The messages of the informational log events recorded in a trace. -/
def logMessages (tr : List Event) : List Str :=
  tr.filterMap (fun e => match e with | Event.logInfo m => some m | _ => none)

/-- Whether an event is a directory creation. -/
def isMkdirs : Event → Bool
  | Event.mkdirsDone _ => true
  | _ => false

/-- Whether an event is a file write. -/
def isWrite : Event → Bool
  | Event.fileWrite _ _ => true
  | _ => false

/-- Whether an event is an informational log message. -/
def isLog : Event → Bool
  | Event.logInfo _ => true
  | _ => false

/-- Index of the first event satisfying a predicate, if any. -/
def idxOf? (p : Event → Bool) : List Event → Option Nat
  | [] => none
  | e :: tr => if p e then some 0 else (idxOf? p tr).map (fun n => n + 1)

/-- Concrete fixture: the directory holding the configuration file. -/
def sampleDir : Str := "/srv/proj".toList

/-- Concrete fixture: the contents manager, rooted at the same directory. -/
def sampleCm : ContentsManager := { root_dir := "/srv/proj".toList }

/-- Concrete fixture: the saved notebook's on-disk path. -/
def samplePath : Str := "/srv/proj/a/b/Notebook.ipynb".toList

/-- Concrete fixture: the rendered script of the end-to-end scenario. -/
def sampleScript : Str := "print(1)\n".toList

/-- Concrete fixture: an exporter behaviour that renders `sampleScript`
with output extension `.py`, never fails, on a POSIX-like platform whose
default encoding differs from UTF-8. -/
def sampleEnv : Env :=
  { from_filename := fun _ _ => Except.ok (sampleScript, [(outputExtensionKey, ".py".toList)])
    mkdirErr := fun _ => none
    writeErr := fun _ => none
    plat := { linesep := ['\r', '\n'], defaultEncoding := "latin-1" } }

/-- Concrete fixture: like `sampleEnv` but the exporter's resources omit
the `output_extension` key. -/
def sampleEnvNoExt : Env :=
  { from_filename := fun _ _ => Except.ok (sampleScript, [])
    mkdirErr := fun _ => none
    writeErr := fun _ => none
    plat := { linesep := ['\n'], defaultEncoding := "utf-8" } }

/-- Concrete fixture: an exporter whose conversion raises. -/
def sampleEnvConvErr : Env :=
  { from_filename := fun _ _ => Except.error "conversion failed".toList
    mkdirErr := fun _ => none
    writeErr := fun _ => none
    plat := { linesep := ['\n'], defaultEncoding := "utf-8" } }

/-- Concrete fixture: `os.makedirs` fails with a permission error. -/
def sampleEnvMkdirErr : Env :=
  { from_filename := fun _ _ => Except.ok (sampleScript, [(outputExtensionKey, ".py".toList)])
    mkdirErr := fun _ => some "permission denied".toList
    writeErr := fun _ => none
    plat := { linesep := ['\n'], defaultEncoding := "utf-8" } }

/-- Concrete fixture: opening or writing the export file fails. -/
def sampleEnvWriteErr : Env :=
  { from_filename := fun _ _ => Except.ok (sampleScript, [(outputExtensionKey, ".py".toList)])
    mkdirErr := fun _ => none
    writeErr := fun _ => some "disk full".toList
    plat := { linesep := ['\n'], defaultEncoding := "utf-8" } }

/-- Concrete fixture: the fresh per-process state over an empty filesystem. -/
def sampleSt : ProcState :=
  { script_exporter := none, fs := { dirs := [], files := [] } }

/-- Concrete fixture: the exporter the hook builds on the first sample
notebook save. -/
def sampleExp : ScriptExporter :=
  { parent := sampleCm, template_file := path_join sampleDir templateName }

/-- Concrete fixture: a state whose exporter cache is already warm. -/
def sampleStCached : ProcState :=
  { script_exporter := some sampleExp, fs := { dirs := [], files := [] } }

/-- Concrete fixture: two consecutive notebook saves. -/
def sampleEvs : List SaveEvent :=
  [{ model := { type := ModelType.notebook }, os_path := samplePath, cm := sampleCm },
   { model := { type := ModelType.notebook }, os_path := samplePath, cm := sampleCm }]

/-- Concrete fixture: a sequence with no notebook save. -/
def sampleFileEvs : List SaveEvent :=
  [{ model := { type := ModelType.file }, os_path := samplePath, cm := sampleCm },
   { model := { type := ModelType.directory }, os_path := samplePath, cm := sampleCm }]

/-!
## Sanity checks against the CPython semantics of the embedded helpers
-/

example : splitext "a/b/Notebook.ipynb".toList = ("a/b/Notebook".toList, ".ipynb".toList) := by
  decide

example : splitext "/r/.bashrc".toList = ("/r/.bashrc".toList, []) := by decide

example : splitext "a.b/c".toList = ("a.b/c".toList, []) := by decide

example : dirname "a/b/c.py".toList = "a/b".toList := by decide

example : dirname "/a".toList = "/".toList := by decide

example : dirname "abc".toList = [] := by decide

example : path_join "/x/y".toList ".nbexports".toList = "/x/y/.nbexports".toList := by decide

example : path_join "/x/y".toList "/abs".toList = "/abs".toList := by decide

example :
    to_api_path "/root/proj/a/b/N.py".toList "/root/proj".toList = "a/b/N.py".toList := by
  decide

example :
    writtenPaths (script_post_save sampleEnv sampleDir { type := ModelType.notebook }
        samplePath sampleCm sampleSt).trace =
      ["/srv/proj/.nbexports/a/b/Notebook.py".toList] := by decide

example :
    lookupFile (script_post_save sampleEnv sampleDir { type := ModelType.notebook }
        samplePath sampleCm sampleSt).state.fs.files
      "/srv/proj/.nbexports/a/b/Notebook.py".toList = some (utf8Encode sampleScript) := by
  decide

/-!
## Lemmas about the embedded path helpers
-/

/-- Unfolding equation of `splitAtLastSep` at a cons cell. -/
theorem splitAtLastSep_cons (c : Char) (cs : Str) :
    splitAtLastSep (c :: cs) =
      if '/' ∈ c :: cs then
        if c = '/' ∧ '/' ∉ cs then ([c], cs)
        else (c :: (splitAtLastSep cs).1, (splitAtLastSep cs).2)
      else ([], c :: cs) := rfl

/-- A path without separators is all basename. -/
theorem splitAtLastSep_noSlash (b : Str) (h : '/' ∉ b) : splitAtLastSep b = ([], b) := by
  cases b with
  | nil => rfl
  | cons c cs => rw [splitAtLastSep_cons, if_neg h]

/-- `splitAtLastSep` distributes over an append whose right half carries a
separator: the last `'/'` of `a ++ '/' :: b` is the last `'/'` of `b`, or
the explicit one when `b` has none. -/
theorem splitAtLastSep_append (a b : Str) :
    splitAtLastSep (a ++ '/' :: b) =
      (a ++ '/' :: (splitAtLastSep b).1, (splitAtLastSep b).2) := by
  induction a with
  | nil =>
    simp only [List.nil_append]
    rw [splitAtLastSep_cons, if_pos (List.mem_cons_self _ _)]
    by_cases hb : '/' ∈ b
    · rw [if_neg (by simp [hb])]
    · rw [if_pos ⟨rfl, hb⟩, splitAtLastSep_noSlash b hb]
  | cons c cs ih =>
    rw [List.cons_append, splitAtLastSep_cons]
    have hmem2 : '/' ∈ cs ++ '/' :: b := by simp
    rw [if_pos (List.mem_cons_of_mem c hmem2), if_neg (by simp [hmem2]), ih]
    simp

/-- `os.path.splitext` only looks at the basename: prefixing a directory
leaves the extension unchanged and the stem prefixed. -/
theorem splitext_append (a b : Str) :
    splitext (a ++ '/' :: b) = (a ++ '/' :: (splitext b).1, (splitext b).2) := by
  unfold splitext
  rw [splitAtLastSep_append]
  simp

/-- Unfolding equation of `splitSep` at a cons cell. -/
theorem splitSep_cons (c : Char) (cs : Str) :
    splitSep (c :: cs) =
      if c = '/' then [] :: splitSep cs
      else
        match splitSep cs with
        | [] => [[c]]
        | s :: rest => (c :: s) :: rest := rfl

/-- `splitSep` never returns the empty list of pieces. -/
theorem splitSep_ne_nil (p : Str) : splitSep p ≠ [] := by
  cases p with
  | nil => simp [splitSep]
  | cons c cs =>
    rw [splitSep_cons]
    by_cases h : c = '/'
    · simp [h]
    · rw [if_neg h]
      cases hs : splitSep cs <;> simp

/-- Splitting on `'/'` after prepending separator-free text extends the
first piece. -/
theorem splitSep_append_noSlash (s t : Str) (h : '/' ∉ s) :
    splitSep (s ++ t) = (s ++ (splitSep t).headI) :: (splitSep t).tail := by
  induction s with
  | nil =>
    simp only [List.nil_append]
    cases ht : splitSep t with
    | nil => exact absurd ht (splitSep_ne_nil t)
    | cons x xs => simp [List.headI]
  | cons c cs ih =>
    have hc : c ≠ '/' := by
      intro e
      subst e
      exact h (List.mem_cons_self _ _)
    have h2 : '/' ∉ cs := fun m => h (List.mem_cons_of_mem c m)
    rw [List.cons_append, splitSep_cons, if_neg hc, ih h2]
    simp

/-- Splitting an interleaving of separator-free pieces recovers them. -/
theorem splitSep_joinSegs :
    ∀ segs : List Str, (∀ s ∈ segs, '/' ∉ s) → segs ≠ [] →
      splitSep (joinSegs segs) = segs
  | [], _, h1 => absurd rfl h1
  | [s], h2, _ => by
    have hs : '/' ∉ s := h2 s (by simp)
    have he := splitSep_append_noSlash s [] hs
    simp only [List.append_nil] at he
    simpa [joinSegs, splitSep, List.headI] using he
  | s :: s2 :: rest, h2, _ => by
    have hs : '/' ∉ s := h2 s (by simp)
    have ih :=
      splitSep_joinSegs (s2 :: rest) (fun x hx => h2 x (by simp [hx])) (by simp)
    show splitSep (s ++ '/' :: joinSegs (s2 :: rest)) = s :: s2 :: rest
    rw [splitSep_append_noSlash s _ hs]
    have hsl : splitSep ('/' :: joinSegs (s2 :: rest)) =
        [] :: splitSep (joinSegs (s2 :: rest)) := by
      rw [splitSep_cons, if_pos rfl]
    rw [hsl, ih]
    simp [List.headI]

/-- Filtering out empty pieces from an all-non-empty list is the identity. -/
theorem filter_nonempty_id (segs : List Str) (h : ∀ s ∈ segs, s ≠ []) :
    segs.filter (fun s => s ≠ []) = segs := by
  induction segs with
  | nil => rfl
  | cons s ss ih =>
    have hs : s ≠ [] := h s (by simp)
    have ihh := ih (fun x hx => h x (by simp [hx]))
    rw [List.filter_cons, if_pos (by simpa using hs), ihh]

/-- The host's `to_api_path` strips the storage root (plus the separator)
from a well-formed path below it. -/
theorem to_api_path_root_append (root : Str) (segs : List Str)
    (h1 : segs ≠ []) (h2 : ∀ s ∈ segs, s ≠ [] ∧ '/' ∉ s) :
    to_api_path (root ++ '/' :: joinSegs segs) root = joinSegs segs := by
  unfold to_api_path
  have hpre : root.isPrefixOf (root ++ '/' :: joinSegs segs) = true :=
    List.isPrefixOf_iff_prefix.mpr (List.prefix_append _ _)
  have hsl : splitSep ('/' :: joinSegs segs) = [] :: splitSep (joinSegs segs) := by
    rw [splitSep_cons, if_pos rfl]
  rw [hpre]
  simp only [if_true, List.drop_left]
  rw [hsl, splitSep_joinSegs segs (fun s hs => (h2 s hs).2) h1, List.filter_cons]
  have hfil := filter_nonempty_id segs (fun s hs => (h2 s hs).1)
  simp only [ne_eq, decide_not] at hfil
  simp [hfil]

/-- `os.path.join` inserts exactly one separator when the left part is
non-empty without a trailing `'/'` and the right part is relative. -/
theorem path_join_sep (a b : Str) (hb : b.head? ≠ some '/')
    (ha1 : a ≠ []) (ha2 : a.getLast? ≠ some '/') :
    path_join a b = a ++ '/' :: b := by
  unfold path_join
  rw [if_neg hb, if_neg (by push_neg; exact ⟨ha1, ha2⟩)]

/-- A separator-interleaving of non-empty separator-free pieces does not
start with `'/'`. -/
theorem joinSegs_head_ne_slash (segs : List Str) (h1 : segs ≠ [])
    (h2 : ∀ s ∈ segs, s ≠ [] ∧ '/' ∉ s) : (joinSegs segs).head? ≠ some '/' := by
  cases segs with
  | nil => exact absurd rfl h1
  | cons s rest =>
    obtain ⟨hs1, hs2⟩ := h2 s (by simp)
    cases s with
    | nil => exact absurd rfl hs1
    | cons c cs =>
      have hc : c ≠ '/' := by
        intro e
        subst e
        exact hs2 (List.mem_cons_self _ _)
      cases rest with
      | nil => simp [joinSegs, hc]
      | cons s2 r2 =>
        show ((c :: cs) ++ '/' :: joinSegs (s2 :: r2)).head? ≠ some '/'
        simp [hc]

/-!
## Lemmas about the filesystem model
-/

/-- After `setFile`, looking up the written path yields the new contents. -/
theorem lookupFile_setFile_self (f : List (Str × List Nat)) (p : Str) (v : List Nat) :
    lookupFile (setFile f p v) p = some v := by
  induction f with
  | nil => simp [setFile, lookupFile]
  | cons kv rest ih =>
    obtain ⟨q, w⟩ := kv
    by_cases h : q = p
    · simp [setFile, lookupFile, h]
    · simp [setFile, lookupFile, h, ih]

/-- Storing the same contents at the same path twice is the same as once. -/
theorem setFile_setFile (f : List (Str × List Nat)) (p : Str) (v : List Nat) :
    setFile (setFile f p v) p v = setFile f p v := by
  induction f with
  | nil => simp [setFile]
  | cons kv rest ih =>
    obtain ⟨q, w⟩ := kv
    by_cases h : q = p
    · simp [setFile, h]
    · simp [setFile, h, ih]

/-- The fold preserves the elements already present. -/
theorem mem_foldl_insertDir_right (c : List Str) (d : List Str) (x : Str) (h : x ∈ d) :
    x ∈ c.foldl insertDir d := by
  induction c generalizing d with
  | nil => exact h
  | cons y ys ih =>
    apply ih
    unfold insertDir
    by_cases hy : y ∈ d
    · simpa [hy]
    · simp [hy, h]

/-- Elements of the inserted list end up in the fold. -/
theorem mem_foldl_insertDir_left (c : List Str) (d : List Str) (x : Str) (h : x ∈ c) :
    x ∈ c.foldl insertDir d := by
  induction c generalizing d with
  | nil => cases h
  | cons y ys ih =>
    rcases List.mem_cons.mp h with h1 | h2
    · subst h1
      refine mem_foldl_insertDir_right ys (insertDir d x) x ?_
      unfold insertDir
      by_cases hy : x ∈ d
      · simp [hy]
      · simp [hy]
    · exact ih (insertDir d y) h2

/-- Inserting only already-present directories changes nothing. -/
theorem foldl_insertDir_of_mem (c : List Str) (d : List Str) (h : ∀ x ∈ c, x ∈ d) :
    c.foldl insertDir d = d := by
  induction c with
  | nil => rfl
  | cons y ys ih =>
    have hy : y ∈ d := h y (by simp)
    have hins : insertDir d y = d := by
      unfold insertDir
      rw [if_pos hy]
    show List.foldl insertDir (insertDir d y) ys = d
    rw [hins]
    exact ih (fun x hx => h x (by simp [hx]))

/-- `os.makedirs(..., exist_ok=True)` is idempotent. -/
theorem makedirs_makedirs (p : Str) (dirs : List Str) :
    makedirs p (makedirs p dirs) = makedirs p dirs := by
  unfold makedirs
  exact foldl_insertDir_of_mem _ _ (fun x hx => mem_foldl_insertDir_left _ _ _ hx)

/-- Every directory in the ancestor chain exists after `makedirs`. -/
theorem chain_subset_makedirs (p : Str) (dirs : List Str) (q : Str)
    (h : q ∈ parentChain (p.length + 1) p) : q ∈ makedirs p dirs :=
  mem_foldl_insertDir_left _ _ _ h

/-!
## Unfolding equations of the hook
-/

/-- `export_script` on a successful conversion with no OS failure:
the trace is invoke, mkdirs, log, write, and the filesystem gains the
directories and the written file. -/
theorem export_script_ok (env : Env) (dir_path : Str) (exporter : ScriptExporter)
    (model : SaveModel) (os_path : Str) (cm : ContentsManager) (fs : FS)
    (script : Str) (resources : Resources)
    (hconv : env.from_filename exporter os_path = Except.ok (script, resources))
    (hmk : env.mkdirErr (dirname (exportTargetPath dir_path cm os_path resources)) = none)
    (hwr : env.writeErr (exportTargetPath dir_path cm os_path resources) = none) :
    export_script env dir_path exporter model os_path cm fs =
      ([Event.exportInvoked os_path,
        Event.mkdirsDone (dirname (exportTargetPath dir_path cm os_path resources)),
        Event.logInfo (savingMsg ++ exportTargetPath dir_path cm os_path resources),
        Event.fileWrite (exportTargetPath dir_path cm os_path resources)
          (pyTextWrite env.plat (some "utf-8") (some ['\n']) script)],
       { dirs := makedirs (dirname (exportTargetPath dir_path cm os_path resources)) fs.dirs,
         files := setFile fs.files (exportTargetPath dir_path cm os_path resources)
           (pyTextWrite env.plat (some "utf-8") (some ['\n']) script) },
       none) := by
  simp [export_script, hconv, hmk, hwr]

/-- `export_script` when the exporter raises: the exception propagates and
the filesystem is untouched. -/
theorem export_script_convErr (env : Env) (dir_path : Str) (exporter : ScriptExporter)
    (model : SaveModel) (os_path : Str) (cm : ContentsManager) (fs : FS) (e : Str)
    (hconv : env.from_filename exporter os_path = Except.error e) :
    export_script env dir_path exporter model os_path cm fs =
      ([Event.exportInvoked os_path], fs, some e) := by
  simp [export_script, hconv]

/-- `export_script` when `os.makedirs` fails: the OS error propagates and
the filesystem is untouched. -/
theorem export_script_mkdirErr (env : Env) (dir_path : Str) (exporter : ScriptExporter)
    (model : SaveModel) (os_path : Str) (cm : ContentsManager) (fs : FS)
    (script : Str) (resources : Resources) (e : Str)
    (hconv : env.from_filename exporter os_path = Except.ok (script, resources))
    (hmk : env.mkdirErr (dirname (exportTargetPath dir_path cm os_path resources)) = some e) :
    export_script env dir_path exporter model os_path cm fs =
      ([Event.exportInvoked os_path], fs, some e) := by
  simp [export_script, hconv, hmk]

/-- `export_script` when opening or writing the file fails: the OS error
propagates after the directories were made and the log line emitted, and
no file contents change. -/
theorem export_script_writeErr (env : Env) (dir_path : Str) (exporter : ScriptExporter)
    (model : SaveModel) (os_path : Str) (cm : ContentsManager) (fs : FS)
    (script : Str) (resources : Resources) (e : Str)
    (hconv : env.from_filename exporter os_path = Except.ok (script, resources))
    (hmk : env.mkdirErr (dirname (exportTargetPath dir_path cm os_path resources)) = none)
    (hwr : env.writeErr (exportTargetPath dir_path cm os_path resources) = some e) :
    export_script env dir_path exporter model os_path cm fs =
      ([Event.exportInvoked os_path,
        Event.mkdirsDone (dirname (exportTargetPath dir_path cm os_path resources)),
        Event.logInfo (savingMsg ++ exportTargetPath dir_path cm os_path resources)],
       { dirs := makedirs (dirname (exportTargetPath dir_path cm os_path resources)) fs.dirs,
         files := fs.files },
       some e) := by
  simp [export_script, hconv, hmk, hwr]

/-- `script_post_save` on a non-notebook save: empty trace, unchanged
state, no exception. -/
theorem script_post_save_skip (env : Env) (dir_path : Str) (model : SaveModel)
    (os_path : Str) (cm : ContentsManager) (st : ProcState)
    (h : model.type ≠ ModelType.notebook) :
    script_post_save env dir_path model os_path cm st =
      { trace := [], state := st, err := none } := by
  simp [script_post_save, h]

/-- `script_post_save` on a notebook save: cache the exporter (recording a
construction when the cache was cold) and run `export_script`. -/
theorem script_post_save_run (env : Env) (dir_path : Str) (model : SaveModel)
    (os_path : Str) (cm : ContentsManager) (st : ProcState)
    (h : model.type = ModelType.notebook) :
    script_post_save env dir_path model os_path cm st =
      { trace :=
          (if st.script_exporter = none
            then [Event.exporterConstructed (currentExporter dir_path cm st)] else []) ++
          (export_script env dir_path (currentExporter dir_path cm st) model os_path cm
            st.fs).1,
        state := { script_exporter := some (currentExporter dir_path cm st),
                   fs := (export_script env dir_path (currentExporter dir_path cm st) model
                     os_path cm st.fs).2.1 },
        err := (export_script env dir_path (currentExporter dir_path cm st) model os_path cm
          st.fs).2.2 } := by
  simp [script_post_save, h]

/-- `script_post_save` on a notebook save with a warm exporter cache: the
cached instance is reused and no construction is recorded. -/
theorem script_post_save_cached (env : Env) (dir_path : Str) (model : SaveModel)
    (os_path : Str) (cm : ContentsManager) (st : ProcState) (exp : ScriptExporter)
    (h : model.type = ModelType.notebook) (hse : st.script_exporter = some exp) :
    script_post_save env dir_path model os_path cm st =
      { trace := (export_script env dir_path exp model os_path cm st.fs).1,
        state := { script_exporter := some exp,
                   fs := (export_script env dir_path exp model os_path cm st.fs).2.1 },
        err := (export_script env dir_path exp model os_path cm st.fs).2.2 } := by
  rw [script_post_save_run env dir_path model os_path cm st h]
  simp [currentExporter, hse]

/-!
## The claims
-/

/-- The export-path arithmetic of `export_script`, isolated: for a save at
`<root>/<rel>` where `splitext rel = (stem, oext)` and the exporter
reports extension `e`, the target path is
`<dir_path>/.nbexports/<stem><e>`. -/
theorem exportTargetPath_eq (dir_path : Str) (cm : ContentsManager)
    (rel stem oext e : Str) (resources : Resources) (segs : List Str)
    (hsplit : splitext rel = (stem, oext))
    (hres : dictLookup resources outputExtensionKey = some e)
    (hsegs : stem ++ e = joinSegs segs)
    (h1 : segs ≠ []) (h2 : ∀ s ∈ segs, s ≠ [] ∧ '/' ∉ s)
    (hdp1 : dir_path ≠ []) (hdp2 : dir_path.getLast? ≠ some '/') :
    exportTargetPath dir_path cm (cm.root_dir ++ '/' :: rel) resources =
      dir_path ++ '/' :: (nbexportsName ++ '/' :: (stem ++ e)) := by
  unfold exportTargetPath
  have hg : dictGet resources outputExtensionKey txtExt = e := by
    unfold dictGet
    rw [hres]
  rw [splitext_append, hg]
  simp only [hsplit]
  have hb : (cm.root_dir ++ '/' :: stem) ++ e = cm.root_dir ++ '/' :: (stem ++ e) := by
    simp
  rw [hb, hsegs, to_api_path_root_append cm.root_dir segs h1 h2]
  have hj1 : path_join dir_path nbexportsName = dir_path ++ '/' :: nbexportsName :=
    path_join_sep _ _ (by decide) hdp1 hdp2
  rw [hj1]
  have ha1 : dir_path ++ '/' :: nbexportsName ≠ [] := by simp
  have ha2 : (dir_path ++ '/' :: nbexportsName).getLast? ≠ some '/' := by
    rw [List.getLast?_append_of_ne_nil _ (by simp)]
    decide
  have hb2 : (joinSegs segs).head? ≠ some '/' := joinSegs_head_ne_slash segs h1 h2
  rw [path_join_sep _ _ hb2 ha1 ha2, ← hsegs]
  simp

/-- C1: for every save of a notebook at relative path `rel` under the
storage root, where the exporter reports output extension `e`, the export
file is written at `<dir_path>/.nbexports/<rel-without-extension><e>`,
the export root being the `.nbexports` directory beside the configuration
file (`dir_path`). -/
theorem notebook_export_written_at_mirrored_path (env : Env) (dir_path : Str)
    (model : SaveModel) (cm : ContentsManager) (st : ProcState)
    (rel stem oext e script : Str) (resources : Resources) (segs : List Str)
    (hm : model.type = ModelType.notebook)
    (hconv : env.from_filename (currentExporter dir_path cm st)
      (cm.root_dir ++ '/' :: rel) = Except.ok (script, resources))
    (hsplit : splitext rel = (stem, oext))
    (hres : dictLookup resources outputExtensionKey = some e)
    (hsegs : stem ++ e = joinSegs segs)
    (h1 : segs ≠ []) (h2 : ∀ s ∈ segs, s ≠ [] ∧ '/' ∉ s)
    (hdp1 : dir_path ≠ []) (hdp2 : dir_path.getLast? ≠ some '/')
    (hmk : ∀ q, env.mkdirErr q = none) (hwr : ∀ q, env.writeErr q = none) :
    writtenPaths (script_post_save env dir_path model (cm.root_dir ++ '/' :: rel)
        cm st).trace =
      [dir_path ++ '/' :: (nbexportsName ++ '/' :: (stem ++ e))] := by
  have hpath := exportTargetPath_eq dir_path cm rel stem oext e resources segs
    hsplit hres hsegs h1 h2 hdp1 hdp2
  rw [script_post_save_run env dir_path model _ cm st hm]
  rw [export_script_ok env dir_path _ model _ cm st.fs script resources hconv
    (hmk _) (hwr _)]
  cases hse : st.script_exporter <;> simp [writtenPaths, hpath]

/-- Witness for C1: the spec's scenario `a/b/Notebook.ipynb` with
extension `.py` lands at `<export-root>/a/b/Notebook.py`. -/
theorem notebook_export_written_at_mirrored_path_witness :
    writtenPaths (script_post_save sampleEnv sampleDir { type := ModelType.notebook }
        (sampleCm.root_dir ++ '/' :: "a/b/Notebook.ipynb".toList) sampleCm sampleSt).trace =
      [sampleDir ++ '/' :: (nbexportsName ++ '/' ::
        ("a/b/Notebook".toList ++ ".py".toList))] :=
  notebook_export_written_at_mirrored_path sampleEnv sampleDir
    { type := ModelType.notebook } sampleCm sampleSt
    "a/b/Notebook.ipynb".toList "a/b/Notebook".toList ".ipynb".toList ".py".toList
    sampleScript [(outputExtensionKey, ".py".toList)]
    [['a'], ['b'], "Notebook.py".toList]
    rfl rfl (by decide) (by decide) (by decide) (by decide) (by decide)
    (by decide) (by decide) (fun _ => rfl) (fun _ => rfl)

/-- C2: a save whose `model.type` is not `notebook` returns immediately
with no side effects: empty event trace (so no write, no directory
creation, no log line, no exporter invocation or construction), unchanged
process state, and no exception. -/
theorem non_notebook_save_has_no_effects (env : Env) (dir_path : Str)
    (model : SaveModel) (os_path : Str) (cm : ContentsManager) (st : ProcState)
    (h : model.type ≠ ModelType.notebook) :
    (script_post_save env dir_path model os_path cm st).trace = [] ∧
    (script_post_save env dir_path model os_path cm st).state = st ∧
    (script_post_save env dir_path model os_path cm st).err = none := by
  rw [script_post_save_skip env dir_path model os_path cm st h]
  exact ⟨rfl, rfl, rfl⟩

/-- Witness for C2: saving a plain file leaves everything untouched. -/
theorem non_notebook_save_has_no_effects_witness :
    (script_post_save sampleEnv sampleDir { type := ModelType.file } samplePath
      sampleCm sampleSt).trace = [] ∧
    (script_post_save sampleEnv sampleDir { type := ModelType.file } samplePath
      sampleCm sampleSt).state = sampleSt ∧
    (script_post_save sampleEnv sampleDir { type := ModelType.file } samplePath
      sampleCm sampleSt).err = none :=
  non_notebook_save_has_no_effects sampleEnv sampleDir { type := ModelType.file }
    samplePath sampleCm sampleSt (by decide)

/-- C3: every file write of the hook fully replaces the contents at the
export path with the newly rendered bytes (whatever was there before),
and running the hook a second time on the same notebook with the same
exporter output reproduces the state of the first run exactly
(idempotence given identical notebook content). -/
theorem export_overwrites_and_resave_is_idempotent (env : Env) (dir_path : Str)
    (model : SaveModel) (os_path : Str) (cm : ContentsManager) (st : ProcState) :
    (∀ p b,
      Event.fileWrite p b ∈ (script_post_save env dir_path model os_path cm st).trace →
      lookupFile (script_post_save env dir_path model os_path cm st).state.fs.files p =
        some b) ∧
    (script_post_save env dir_path model os_path cm
        (script_post_save env dir_path model os_path cm st).state).state =
      (script_post_save env dir_path model os_path cm st).state := by
  by_cases hm : model.type = ModelType.notebook
  · rw [script_post_save_run env dir_path model os_path cm st hm]
    cases hconv : env.from_filename (currentExporter dir_path cm st) os_path with
    | error e =>
      rw [export_script_convErr env dir_path _ model os_path cm st.fs e hconv]
      constructor
      · intro p b hmem
        cases hse : st.script_exporter <;> simp [hse] at hmem
      · rw [script_post_save_cached env dir_path model os_path cm _
            (currentExporter dir_path cm st) hm rfl,
          export_script_convErr env dir_path _ model os_path cm _ e hconv]
    | ok pr =>
      obtain ⟨script, resources⟩ := pr
      cases hmk : env.mkdirErr (dirname (exportTargetPath dir_path cm os_path resources)) with
      | some e =>
        rw [export_script_mkdirErr env dir_path _ model os_path cm st.fs script resources e
            hconv hmk]
        constructor
        · intro p b hmem
          cases hse : st.script_exporter <;> simp [hse] at hmem
        · rw [script_post_save_cached env dir_path model os_path cm _
              (currentExporter dir_path cm st) hm rfl,
            export_script_mkdirErr env dir_path _ model os_path cm _ script resources e
              hconv hmk]
      | none =>
        cases hwr : env.writeErr (exportTargetPath dir_path cm os_path resources) with
        | some e =>
          rw [export_script_writeErr env dir_path _ model os_path cm st.fs script resources e
              hconv hmk hwr]
          constructor
          · intro p b hmem
            cases hse : st.script_exporter <;> simp [hse] at hmem
          · rw [script_post_save_cached env dir_path model os_path cm _
                (currentExporter dir_path cm st) hm rfl,
              export_script_writeErr env dir_path _ model os_path cm _ script resources e
                hconv hmk hwr]
            simp [makedirs_makedirs]
        | none =>
          rw [export_script_ok env dir_path _ model os_path cm st.fs script resources
              hconv hmk hwr]
          constructor
          · intro p b hmem
            have hmem2 : p = exportTargetPath dir_path cm os_path resources ∧
                b = pyTextWrite env.plat (some "utf-8") (some ['\n']) script := by
              cases hse : st.script_exporter <;> simp [hse] at hmem <;> exact hmem
            obtain ⟨hp, hb⟩ := hmem2
            subst hp
            subst hb
            exact lookupFile_setFile_self _ _ _
          · rw [script_post_save_cached env dir_path model os_path cm _
                (currentExporter dir_path cm st) hm rfl,
              export_script_ok env dir_path _ model os_path cm _ script resources
                hconv hmk hwr]
            simp [makedirs_makedirs, setFile_setFile]
  · rw [script_post_save_skip env dir_path model os_path cm st hm]
    refine ⟨fun p b hmem => absurd hmem (by simp), ?_⟩
    show (script_post_save env dir_path model os_path cm st).state = st
    rw [script_post_save_skip env dir_path model os_path cm st hm]

/-- Witness for C3: re-saving the sample notebook leaves the export file
byte-for-byte the rendered script, and the second run's state equals the
first's. -/
theorem export_overwrites_and_resave_is_idempotent_witness :
    lookupFile (script_post_save sampleEnv sampleDir { type := ModelType.notebook }
        samplePath sampleCm sampleSt).state.fs.files
      "/srv/proj/.nbexports/a/b/Notebook.py".toList = some (utf8Encode sampleScript) ∧
    (script_post_save sampleEnv sampleDir { type := ModelType.notebook } samplePath sampleCm
        (script_post_save sampleEnv sampleDir { type := ModelType.notebook } samplePath
          sampleCm sampleSt).state).state =
      (script_post_save sampleEnv sampleDir { type := ModelType.notebook } samplePath
        sampleCm sampleSt).state :=
  ⟨(export_overwrites_and_resave_is_idempotent sampleEnv sampleDir
      { type := ModelType.notebook } samplePath sampleCm sampleSt).1
      "/srv/proj/.nbexports/a/b/Notebook.py".toList (utf8Encode sampleScript) (by decide),
   (export_overwrites_and_resave_is_idempotent sampleEnv sampleDir
      { type := ModelType.notebook } samplePath sampleCm sampleSt).2⟩

/-- Unfolding equation of `runSaves` at a cons cell. -/
theorem runSaves_cons (env : Env) (dir_path : Str) (st : ProcState)
    (ev : SaveEvent) (rest : List SaveEvent) :
    runSaves env dir_path st (ev :: rest) =
      ((script_post_save env dir_path ev.model ev.os_path ev.cm st).trace ++
        (runSaves env dir_path
          (script_post_save env dir_path ev.model ev.os_path ev.cm st).state rest).1,
       (runSaves env dir_path
         (script_post_save env dir_path ev.model ev.os_path ev.cm st).state rest).2) := rfl

/-- `script_post_save` on a notebook save with a cold exporter cache: a
construction is recorded and the fresh instance cached. -/
theorem script_post_save_cold (env : Env) (dir_path : Str) (model : SaveModel)
    (os_path : Str) (cm : ContentsManager) (st : ProcState)
    (h : model.type = ModelType.notebook) (hse : st.script_exporter = none) :
    script_post_save env dir_path model os_path cm st =
      { trace := Event.exporterConstructed (currentExporter dir_path cm st) ::
          (export_script env dir_path (currentExporter dir_path cm st) model os_path cm
            st.fs).1,
        state := { script_exporter := some (currentExporter dir_path cm st),
                   fs := (export_script env dir_path (currentExporter dir_path cm st) model
                     os_path cm st.fs).2.1 },
        err := (export_script env dir_path (currentExporter dir_path cm st) model os_path cm
          st.fs).2.2 } := by
  rw [script_post_save_run env dir_path model os_path cm st h]
  simp [hse]

/-- Traces are counted additively. -/
theorem countConstruct_append (t1 t2 : List Event) :
    countConstruct (t1 ++ t2) = countConstruct t1 + countConstruct t2 := by
  simp [countConstruct, List.countP_append]

/-- A construction event at the head adds one to the count. -/
theorem countConstruct_cons_construct (e : ScriptExporter) (tr : List Event) :
    countConstruct (Event.exporterConstructed e :: tr) = countConstruct tr + 1 := by
  simp [countConstruct, List.countP_cons]

/-- `export_script` never constructs an exporter. -/
theorem countConstruct_export_script (env : Env) (dir_path : Str)
    (exporter : ScriptExporter) (model : SaveModel) (os_path : Str)
    (cm : ContentsManager) (fs : FS) :
    countConstruct (export_script env dir_path exporter model os_path cm fs).1 = 0 := by
  cases hconv : env.from_filename exporter os_path with
  | error e =>
    rw [export_script_convErr env dir_path exporter model os_path cm fs e hconv]
    rfl
  | ok pr =>
    obtain ⟨script, resources⟩ := pr
    cases hmk : env.mkdirErr (dirname (exportTargetPath dir_path cm os_path resources)) with
    | some e =>
      rw [export_script_mkdirErr env dir_path exporter model os_path cm fs script resources e
          hconv hmk]
      rfl
    | none =>
      cases hwr : env.writeErr (exportTargetPath dir_path cm os_path resources) with
      | some e =>
        rw [export_script_writeErr env dir_path exporter model os_path cm fs script
            resources e hconv hmk hwr]
        rfl
      | none =>
        rw [export_script_ok env dir_path exporter model os_path cm fs script resources
            hconv hmk hwr]
        rfl

/-- Once the exporter cache is warm, a whole run of saves constructs no
exporter and leaves the cached instance in place. -/
theorem runSaves_cached (env : Env) (dir_path : Str) (exp : ScriptExporter) :
    ∀ (evs : List SaveEvent) (st : ProcState), st.script_exporter = some exp →
      countConstruct (runSaves env dir_path st evs).1 = 0 ∧
      (runSaves env dir_path st evs).2.script_exporter = some exp := by
  intro evs
  induction evs with
  | nil =>
    intro st hse
    exact ⟨rfl, hse⟩
  | cons ev rest ih =>
    intro st hse
    rw [runSaves_cons]
    by_cases hm : ev.model.type = ModelType.notebook
    · rw [script_post_save_cached env dir_path ev.model ev.os_path ev.cm st exp hm hse]
      have hih := ih
        { script_exporter := some exp,
          fs := (export_script env dir_path exp ev.model ev.os_path ev.cm st.fs).2.1 } rfl
      refine ⟨?_, ?_⟩
      · rw [countConstruct_append,
          countConstruct_export_script env dir_path exp ev.model ev.os_path ev.cm st.fs]
        simpa using hih.1
      · simpa using hih.2
    · rw [script_post_save_skip env dir_path ev.model ev.os_path ev.cm st hm]
      have hih := ih st hse
      refine ⟨?_, ?_⟩
      · simpa using hih.1
      · simpa using hih.2

/-- With a cold cache, a whole run of saves constructs at most one
exporter. -/
theorem runSaves_cold (env : Env) (dir_path : Str) :
    ∀ (evs : List SaveEvent) (st : ProcState), st.script_exporter = none →
      countConstruct (runSaves env dir_path st evs).1 ≤ 1 := by
  intro evs
  induction evs with
  | nil =>
    intro st hse
    exact Nat.zero_le 1
  | cons ev rest ih =>
    intro st hse
    rw [runSaves_cons]
    by_cases hm : ev.model.type = ModelType.notebook
    · rw [script_post_save_cold env dir_path ev.model ev.os_path ev.cm st hm hse]
      have hcached := runSaves_cached env dir_path (currentExporter dir_path ev.cm st) rest
        { script_exporter := some (currentExporter dir_path ev.cm st),
          fs := (export_script env dir_path (currentExporter dir_path ev.cm st) ev.model
            ev.os_path ev.cm st.fs).2.1 } rfl
      rw [List.cons_append, countConstruct_cons_construct, countConstruct_append,
        countConstruct_export_script env dir_path (currentExporter dir_path ev.cm st)
          ev.model ev.os_path ev.cm st.fs]
      have h0 : countConstruct (runSaves env dir_path
          { script_exporter := some (currentExporter dir_path ev.cm st),
            fs := (export_script env dir_path (currentExporter dir_path ev.cm st) ev.model
              ev.os_path ev.cm st.fs).2.1 } rest).1 = 0 := hcached.1
      simp [h0]
    · rw [script_post_save_skip env dir_path ev.model ev.os_path ev.cm st hm]
      have hih := ih st hse
      simpa using hih

/-- A run with no notebook save does nothing at all. -/
theorem runSaves_all_skip (env : Env) (dir_path : Str) :
    ∀ (evs : List SaveEvent) (st : ProcState),
      (∀ ev ∈ evs, ev.model.type ≠ ModelType.notebook) →
      runSaves env dir_path st evs = ([], st) := by
  intro evs
  induction evs with
  | nil =>
    intro st _
    rfl
  | cons ev rest ih =>
    intro st h
    rw [runSaves_cons,
      script_post_save_skip env dir_path ev.model ev.os_path ev.cm st (h ev (by simp))]
    have hih := ih st (fun x hx => h x (List.mem_cons_of_mem ev hx))
    simpa using hih

/-- C4: across every sequence of save events in one process the exporter
is constructed at most once; it is created lazily (no notebook save, no
construction, state untouched) and, once cached, every further save
constructs nothing and the run ends with the same cached instance. -/
theorem exporter_constructed_at_most_once (env : Env) (dir_path : Str)
    (st : ProcState) (evs : List SaveEvent) :
    (st.script_exporter = none → countConstruct (runSaves env dir_path st evs).1 ≤ 1) ∧
    (∀ exp, st.script_exporter = some exp →
      countConstruct (runSaves env dir_path st evs).1 = 0 ∧
      (runSaves env dir_path st evs).2.script_exporter = some exp) ∧
    ((∀ ev ∈ evs, ev.model.type ≠ ModelType.notebook) →
      runSaves env dir_path st evs = ([], st)) :=
  ⟨fun hse => runSaves_cold env dir_path evs st hse,
   fun exp hse => runSaves_cached env dir_path exp evs st hse,
   fun h => runSaves_all_skip env dir_path evs st h⟩

/-- Witness for C4: two notebook saves construct exactly once from a cold
cache; from a warm cache they construct nothing and keep the instance;
file and directory saves leave the process untouched. -/
theorem exporter_constructed_at_most_once_witness :
    countConstruct (runSaves sampleEnv sampleDir sampleSt sampleEvs).1 ≤ 1 ∧
    (countConstruct (runSaves sampleEnv sampleDir sampleStCached sampleEvs).1 = 0 ∧
      (runSaves sampleEnv sampleDir sampleStCached sampleEvs).2.script_exporter =
        some sampleExp) ∧
    runSaves sampleEnv sampleDir sampleSt sampleFileEvs = ([], sampleSt) :=
  ⟨(exporter_constructed_at_most_once sampleEnv sampleDir sampleSt sampleEvs).1 rfl,
   (exporter_constructed_at_most_once sampleEnv sampleDir sampleStCached sampleEvs).2.1
     sampleExp rfl,
   (exporter_constructed_at_most_once sampleEnv sampleDir sampleSt sampleFileEvs).2.2
     (by decide)⟩

/-- C5: the output extension appended to the export path is the value of
the exporter's `resources` mapping at key `output_extension`; when that
key is absent the default `".txt"` is appended instead. -/
theorem output_extension_from_resources_or_txt (env : Env) (dir_path : Str)
    (model : SaveModel) (os_path : Str) (cm : ContentsManager) (st : ProcState)
    (script : Str) (resources : Resources)
    (hm : model.type = ModelType.notebook)
    (hconv : env.from_filename (currentExporter dir_path cm st) os_path =
      Except.ok (script, resources))
    (hmk : ∀ q, env.mkdirErr q = none) (hwr : ∀ q, env.writeErr q = none) :
    (∀ v, dictLookup resources outputExtensionKey = some v →
      writtenPaths (script_post_save env dir_path model os_path cm st).trace =
        [path_join (path_join dir_path nbexportsName)
          (to_api_path ((splitext os_path).1 ++ v) cm.root_dir)]) ∧
    (dictLookup resources outputExtensionKey = none →
      writtenPaths (script_post_save env dir_path model os_path cm st).trace =
        [path_join (path_join dir_path nbexportsName)
          (to_api_path ((splitext os_path).1 ++ txtExt) cm.root_dir)]) := by
  rw [script_post_save_run env dir_path model os_path cm st hm,
    export_script_ok env dir_path _ model os_path cm st.fs script resources hconv
      (hmk _) (hwr _)]
  constructor
  · intro v hv
    have hg : dictGet resources outputExtensionKey txtExt = v := by
      unfold dictGet
      rw [hv]
    cases hse : st.script_exporter <;> simp [writtenPaths, exportTargetPath, hg]
  · intro hv
    have hg : dictGet resources outputExtensionKey txtExt = txtExt := by
      unfold dictGet
      rw [hv]
    cases hse : st.script_exporter <;> simp [writtenPaths, exportTargetPath, hg]

/-- Witness for C5: with `output_extension = ".py"` the path ends in
`.py`; with the key absent it ends in `.txt`. -/
theorem output_extension_from_resources_or_txt_witness :
    writtenPaths (script_post_save sampleEnv sampleDir { type := ModelType.notebook }
        samplePath sampleCm sampleSt).trace =
      [path_join (path_join sampleDir nbexportsName)
        (to_api_path ((splitext samplePath).1 ++ ".py".toList) sampleCm.root_dir)] ∧
    writtenPaths (script_post_save sampleEnvNoExt sampleDir { type := ModelType.notebook }
        samplePath sampleCm sampleSt).trace =
      [path_join (path_join sampleDir nbexportsName)
        (to_api_path ((splitext samplePath).1 ++ txtExt) sampleCm.root_dir)] :=
  ⟨(output_extension_from_resources_or_txt sampleEnv sampleDir
      { type := ModelType.notebook } samplePath sampleCm sampleSt sampleScript
      [(outputExtensionKey, ".py".toList)] rfl rfl (fun _ => rfl) (fun _ => rfl)).1
      ".py".toList (by decide),
   (output_extension_from_resources_or_txt sampleEnvNoExt sampleDir
      { type := ModelType.notebook } samplePath sampleCm sampleSt sampleScript []
      rfl rfl (fun _ => rfl) (fun _ => rfl)).2 rfl⟩

/-- C6: on a notebook save (absent OS failures) the hook raises no error —
in particular not when the directories already exist, since the starting
filesystem is arbitrary — the directory containing the export file and
all its ancestors exist afterwards, and the directory creation happens
strictly before the file write. -/
theorem export_dirs_created_before_write (env : Env) (dir_path : Str)
    (model : SaveModel) (os_path : Str) (cm : ContentsManager) (st : ProcState)
    (script : Str) (resources : Resources)
    (hm : model.type = ModelType.notebook)
    (hconv : env.from_filename (currentExporter dir_path cm st) os_path =
      Except.ok (script, resources))
    (hmk : ∀ q, env.mkdirErr q = none) (hwr : ∀ q, env.writeErr q = none) :
    (script_post_save env dir_path model os_path cm st).err = none ∧
    (∀ p b,
      Event.fileWrite p b ∈ (script_post_save env dir_path model os_path cm st).trace →
      ∀ q ∈ parentChain ((dirname p).length + 1) (dirname p),
        q ∈ (script_post_save env dir_path model os_path cm st).state.fs.dirs) ∧
    (∀ i j,
      idxOf? isMkdirs (script_post_save env dir_path model os_path cm st).trace = some i →
      idxOf? isWrite (script_post_save env dir_path model os_path cm st).trace = some j →
      i < j) := by
  rw [script_post_save_run env dir_path model os_path cm st hm,
    export_script_ok env dir_path _ model os_path cm st.fs script resources hconv
      (hmk _) (hwr _)]
  refine ⟨rfl, ?_, ?_⟩
  · intro p b hmem
    have hp : p = exportTargetPath dir_path cm os_path resources := by
      cases hse : st.script_exporter <;> simp [hse] at hmem <;> exact hmem.1
    subst hp
    intro q hq
    exact chain_subset_makedirs _ _ _ hq
  · intro i j hi hj
    cases hse : st.script_exporter <;>
      simp [hse, idxOf?, isMkdirs, isWrite] at hi hj <;> omega

/-- Witness for C6: the sample save succeeds on an empty filesystem, the
export directory `/srv/proj/.nbexports/a/b` exists afterwards, and the
mkdirs event precedes the write event. -/
theorem export_dirs_created_before_write_witness :
    (script_post_save sampleEnv sampleDir { type := ModelType.notebook } samplePath
      sampleCm sampleSt).err = none ∧
    "/srv/proj/.nbexports/a/b".toList ∈
      (script_post_save sampleEnv sampleDir { type := ModelType.notebook } samplePath
        sampleCm sampleSt).state.fs.dirs ∧
    (2 : Nat) < 4 :=
  ⟨(export_dirs_created_before_write sampleEnv sampleDir { type := ModelType.notebook }
      samplePath sampleCm sampleSt sampleScript [(outputExtensionKey, ".py".toList)]
      rfl rfl (fun _ => rfl) (fun _ => rfl)).1,
   (export_dirs_created_before_write sampleEnv sampleDir { type := ModelType.notebook }
      samplePath sampleCm sampleSt sampleScript [(outputExtensionKey, ".py".toList)]
      rfl rfl (fun _ => rfl) (fun _ => rfl)).2.1
      "/srv/proj/.nbexports/a/b/Notebook.py".toList (utf8Encode sampleScript) (by decide)
      "/srv/proj/.nbexports/a/b".toList (by decide),
   (export_dirs_created_before_write sampleEnv sampleDir { type := ModelType.notebook }
      samplePath sampleCm sampleSt sampleScript [(outputExtensionKey, ".py".toList)]
      rfl rfl (fun _ => rfl) (fun _ => rfl)).2.2 2 4 (by decide) (by decide)⟩

/-- C7: on a notebook save, a conversion error, a directory-creation
error, or a write error propagates to the caller as-is (the very same
error value); the hook attempts nothing twice and recovers nothing — in
particular no file write happens in any of the three failure modes. -/
theorem hook_errors_propagate_unmodified (env : Env) (dir_path : Str)
    (model : SaveModel) (os_path : Str) (cm : ContentsManager) (st : ProcState)
    (hm : model.type = ModelType.notebook) :
    (∀ e, env.from_filename (currentExporter dir_path cm st) os_path = Except.error e →
      (script_post_save env dir_path model os_path cm st).err = some e ∧
      (script_post_save env dir_path model os_path cm st).state.fs = st.fs ∧
      writtenPaths (script_post_save env dir_path model os_path cm st).trace = []) ∧
    (∀ e script resources,
      env.from_filename (currentExporter dir_path cm st) os_path =
        Except.ok (script, resources) →
      env.mkdirErr (dirname (exportTargetPath dir_path cm os_path resources)) = some e →
      (script_post_save env dir_path model os_path cm st).err = some e ∧
      (script_post_save env dir_path model os_path cm st).state.fs = st.fs ∧
      writtenPaths (script_post_save env dir_path model os_path cm st).trace = []) ∧
    (∀ e script resources,
      env.from_filename (currentExporter dir_path cm st) os_path =
        Except.ok (script, resources) →
      env.mkdirErr (dirname (exportTargetPath dir_path cm os_path resources)) = none →
      env.writeErr (exportTargetPath dir_path cm os_path resources) = some e →
      (script_post_save env dir_path model os_path cm st).err = some e ∧
      (script_post_save env dir_path model os_path cm st).state.fs.files = st.fs.files ∧
      writtenPaths (script_post_save env dir_path model os_path cm st).trace = []) := by
  refine ⟨?_, ?_, ?_⟩
  · intro e hconv
    rw [script_post_save_run env dir_path model os_path cm st hm,
      export_script_convErr env dir_path _ model os_path cm st.fs e hconv]
    refine ⟨rfl, rfl, ?_⟩
    cases hse : st.script_exporter <;> simp [writtenPaths]
  · intro e script resources hconv hmk
    rw [script_post_save_run env dir_path model os_path cm st hm,
      export_script_mkdirErr env dir_path _ model os_path cm st.fs script resources e
        hconv hmk]
    refine ⟨rfl, rfl, ?_⟩
    cases hse : st.script_exporter <;> simp [writtenPaths]
  · intro e script resources hconv hmk hwr
    rw [script_post_save_run env dir_path model os_path cm st hm,
      export_script_writeErr env dir_path _ model os_path cm st.fs script resources e
        hconv hmk hwr]
    refine ⟨rfl, rfl, ?_⟩
    cases hse : st.script_exporter <;> simp [writtenPaths]

/-- Witness for C7: the three failing environments each surface their own
error text unchanged and write nothing. -/
theorem hook_errors_propagate_unmodified_witness :
    ((script_post_save sampleEnvConvErr sampleDir { type := ModelType.notebook }
        samplePath sampleCm sampleSt).err = some "conversion failed".toList ∧
      (script_post_save sampleEnvConvErr sampleDir { type := ModelType.notebook }
        samplePath sampleCm sampleSt).state.fs = sampleSt.fs ∧
      writtenPaths (script_post_save sampleEnvConvErr sampleDir
        { type := ModelType.notebook } samplePath sampleCm sampleSt).trace = []) ∧
    ((script_post_save sampleEnvMkdirErr sampleDir { type := ModelType.notebook }
        samplePath sampleCm sampleSt).err = some "permission denied".toList ∧
      (script_post_save sampleEnvMkdirErr sampleDir { type := ModelType.notebook }
        samplePath sampleCm sampleSt).state.fs = sampleSt.fs ∧
      writtenPaths (script_post_save sampleEnvMkdirErr sampleDir
        { type := ModelType.notebook } samplePath sampleCm sampleSt).trace = []) ∧
    ((script_post_save sampleEnvWriteErr sampleDir { type := ModelType.notebook }
        samplePath sampleCm sampleSt).err = some "disk full".toList ∧
      (script_post_save sampleEnvWriteErr sampleDir { type := ModelType.notebook }
        samplePath sampleCm sampleSt).state.fs.files = sampleSt.fs.files ∧
      writtenPaths (script_post_save sampleEnvWriteErr sampleDir
        { type := ModelType.notebook } samplePath sampleCm sampleSt).trace = []) :=
  ⟨(hook_errors_propagate_unmodified sampleEnvConvErr sampleDir
      { type := ModelType.notebook } samplePath sampleCm sampleSt rfl).1
      "conversion failed".toList rfl,
   (hook_errors_propagate_unmodified sampleEnvMkdirErr sampleDir
      { type := ModelType.notebook } samplePath sampleCm sampleSt rfl).2.1
      "permission denied".toList sampleScript [(outputExtensionKey, ".py".toList)] rfl rfl,
   (hook_errors_propagate_unmodified sampleEnvWriteErr sampleDir
      { type := ModelType.notebook } samplePath sampleCm sampleSt rfl).2.2
      "disk full".toList sampleScript [(outputExtensionKey, ".py".toList)] rfl rfl rfl⟩

/-- Counterexample to C8 as stated: the single informational message of
the sample export is not the bare destination path — the hook logs
`Saving script /%s`, i.e. a fixed literal followed by the path. -/
theorem log_content_is_not_bare_destination_path :
    logMessages (script_post_save sampleEnv sampleDir { type := ModelType.notebook }
        samplePath sampleCm sampleSt).trace ≠
      [exportTargetPath sampleDir sampleCm samplePath
        [(outputExtensionKey, ".py".toList)]] := by
  decide

/-- C8 (amended): a successful notebook export emits exactly one
informational log message — none other — whose content is the fixed
literal `Saving script /` followed by the destination path of the export
file, and the message is emitted before the file write. -/
theorem single_info_log_names_destination (env : Env) (dir_path : Str)
    (model : SaveModel) (os_path : Str) (cm : ContentsManager) (st : ProcState)
    (script : Str) (resources : Resources)
    (hm : model.type = ModelType.notebook)
    (hconv : env.from_filename (currentExporter dir_path cm st) os_path =
      Except.ok (script, resources))
    (hmk : ∀ q, env.mkdirErr q = none) (hwr : ∀ q, env.writeErr q = none) :
    logMessages (script_post_save env dir_path model os_path cm st).trace =
      [savingMsg ++ exportTargetPath dir_path cm os_path resources] ∧
    (∀ i j,
      idxOf? isLog (script_post_save env dir_path model os_path cm st).trace = some i →
      idxOf? isWrite (script_post_save env dir_path model os_path cm st).trace = some j →
      i < j) := by
  rw [script_post_save_run env dir_path model os_path cm st hm,
    export_script_ok env dir_path _ model os_path cm st.fs script resources hconv
      (hmk _) (hwr _)]
  constructor
  · cases hse : st.script_exporter <;> simp [logMessages]
  · intro i j hi hj
    cases hse : st.script_exporter <;>
      simp [hse, idxOf?, isLog, isWrite] at hi hj <;> omega

/-- Witness for C8: the sample export logs exactly
`Saving script //srv/proj/.nbexports/a/b/Notebook.py`, before the write. -/
theorem single_info_log_names_destination_witness :
    logMessages (script_post_save sampleEnv sampleDir { type := ModelType.notebook }
        samplePath sampleCm sampleSt).trace =
      [savingMsg ++ exportTargetPath sampleDir sampleCm samplePath
        [(outputExtensionKey, ".py".toList)]] ∧
    (3 : Nat) < 4 :=
  ⟨(single_info_log_names_destination sampleEnv sampleDir { type := ModelType.notebook }
      samplePath sampleCm sampleSt sampleScript [(outputExtensionKey, ".py".toList)]
      rfl rfl (fun _ => rfl) (fun _ => rfl)).1,
   (single_info_log_names_destination sampleEnv sampleDir { type := ModelType.notebook }
      samplePath sampleCm sampleSt sampleScript [(outputExtensionKey, ".py".toList)]
      rfl rfl (fun _ => rfl) (fun _ => rfl)).2 3 4 (by decide) (by decide)⟩

/-- C9: when the exporter's conversion raises, the filesystem is left
completely unchanged — no directory is created and no file is written —
because the conversion runs before any filesystem side effect; the error
still propagates. -/
theorem conversion_error_is_filesystem_atomic (env : Env) (dir_path : Str)
    (model : SaveModel) (os_path : Str) (cm : ContentsManager) (st : ProcState) (e : Str)
    (hm : model.type = ModelType.notebook)
    (hconv : env.from_filename (currentExporter dir_path cm st) os_path =
      Except.error e) :
    (script_post_save env dir_path model os_path cm st).state.fs = st.fs ∧
    (script_post_save env dir_path model os_path cm st).trace.filter
      (fun ev => isMkdirs ev || isWrite ev) = [] ∧
    (script_post_save env dir_path model os_path cm st).err = some e := by
  rw [script_post_save_run env dir_path model os_path cm st hm,
    export_script_convErr env dir_path _ model os_path cm st.fs e hconv]
  refine ⟨rfl, ?_, rfl⟩
  cases hse : st.script_exporter <;> simp [isMkdirs, isWrite]

/-- Witness for C9: with the raising exporter, the sample save touches
neither directories nor files. -/
theorem conversion_error_is_filesystem_atomic_witness :
    (script_post_save sampleEnvConvErr sampleDir { type := ModelType.notebook }
      samplePath sampleCm sampleSt).state.fs = sampleSt.fs ∧
    (script_post_save sampleEnvConvErr sampleDir { type := ModelType.notebook }
      samplePath sampleCm sampleSt).trace.filter
      (fun ev => isMkdirs ev || isWrite ev) = [] ∧
    (script_post_save sampleEnvConvErr sampleDir { type := ModelType.notebook }
      samplePath sampleCm sampleSt).err = some "conversion failed".toList :=
  conversion_error_is_filesystem_atomic sampleEnvConvErr sampleDir
    { type := ModelType.notebook } samplePath sampleCm sampleSt
    "conversion failed".toList rfl rfl

/-- The hook's text write with `encoding='utf-8', newline='\n'` stores the
UTF-8 bytes of the script unchanged, whatever the platform defaults. -/
theorem pyTextWrite_utf8_lf (plat : Platform) (s : Str) :
    pyTextWrite plat (some "utf-8") (some ['\n']) s = utf8Encode s := rfl

/-- C10: the bytes written for a notebook export are the UTF-8 encoding
of the rendered script with `'\n'` newlines kept as-is — independent of
the platform's `os.linesep` and default encoding, which the quantified
environment and platform carry. -/
theorem export_bytes_are_utf8_with_lf (env : Env) (dir_path : Str)
    (model : SaveModel) (os_path : Str) (cm : ContentsManager) (st : ProcState)
    (script : Str) (resources : Resources)
    (hm : model.type = ModelType.notebook)
    (hconv : env.from_filename (currentExporter dir_path cm st) os_path =
      Except.ok (script, resources))
    (hmk : ∀ q, env.mkdirErr q = none) (hwr : ∀ q, env.writeErr q = none) :
    (∀ p b,
      Event.fileWrite p b ∈ (script_post_save env dir_path model os_path cm st).trace →
      b = utf8Encode script) ∧
    (∀ plat2 : Platform,
      pyTextWrite plat2 (some "utf-8") (some ['\n']) script = utf8Encode script) := by
  rw [script_post_save_run env dir_path model os_path cm st hm,
    export_script_ok env dir_path _ model os_path cm st.fs script resources hconv
      (hmk _) (hwr _)]
  constructor
  · intro p b hmem
    have hb : b = pyTextWrite env.plat (some "utf-8") (some ['\n']) script := by
      cases hse : st.script_exporter <;> simp [hse] at hmem <;> exact hmem.2
    rw [hb, pyTextWrite_utf8_lf]
  · intro plat2
    exact pyTextWrite_utf8_lf plat2 script

/-- Witness for C10: the sample export — run on a platform with CRLF
`os.linesep` and a non-UTF-8 default encoding — stores exactly the UTF-8
bytes of `print(1)\n`. -/
theorem export_bytes_are_utf8_with_lf_witness :
    utf8Encode sampleScript = utf8Encode sampleScript ∧
    pyTextWrite { linesep := ['\r', '\n'], defaultEncoding := "latin-1" }
      (some "utf-8") (some ['\n']) sampleScript = utf8Encode sampleScript :=
  ⟨(export_bytes_are_utf8_with_lf sampleEnv sampleDir { type := ModelType.notebook }
      samplePath sampleCm sampleSt sampleScript [(outputExtensionKey, ".py".toList)]
      rfl rfl (fun _ => rfl) (fun _ => rfl)).1
      "/srv/proj/.nbexports/a/b/Notebook.py".toList (utf8Encode sampleScript) (by decide),
   (export_bytes_are_utf8_with_lf sampleEnv sampleDir { type := ModelType.notebook }
      samplePath sampleCm sampleSt sampleScript [(outputExtensionKey, ".py".toList)]
      rfl rfl (fun _ => rfl) (fun _ => rfl)).2
      { linesep := ['\r', '\n'], defaultEncoding := "latin-1" }⟩

end NbExport
